import Mathlib

/-!
Shallow embedding of the BufferPacker class from include/BufferPacker.h.

A BufferPacker owns a fixed-size byte buffer of SIZE bytes, a data-size
counter, a byte offset (cursor), and a mode.  Plain-old-data values are
modelled by their byte representation: a value of a type T with
sizeof(T) = n is a list of n bytes, and memcpy is modelled by list
surgery on the buffer.  Bytes are natural numbers; nothing in the code
inspects byte values, so no range constraint is needed.
-/

namespace BufferPackerModel

/-- Modes the BufferPacker can run in (enum Mode). -/
inductive Mode : Type where
  | PACK : Mode
  | UNPACK : Mode
  | FAILURE : Mode
deriving DecidableEq

/-- State of a BufferPacker with capacity SIZE: the internal byte buffer
(m_Buffer), the data-size counter (m_DataSize), the byte offset
(m_Offset) and the mode (m_Mode). -/
structure BufferPacker (SIZE : Nat) : Type where
  buffer : List Nat
  dataSize : Nat
  offset : Nat
  mode : Mode
deriving DecidableEq

/-- The semantics of memcpy into the middle of a buffer: overwrite the
bytes of buf starting at position off with the given bytes. -/
def writeBytes (buf : List Nat) (off : Nat) (bytes : List Nat) : List Nat :=
  buf.take off ++ bytes ++ buf.drop (off + bytes.length)

/-- The semantics of memcpy out of the middle of a buffer: read n bytes
of buf starting at position off. -/
def readBytes (buf : List Nat) (off : Nat) (n : Nat) : List Nat :=
  (buf.drop off).take n

/-- The empty constructor: PACK mode, zeroed buffer, offset 0, and
m_DataSize initialized to SIZE. -/
def mkEmpty (SIZE : Nat) : BufferPacker SIZE :=
  { buffer := List.replicate SIZE 0
    dataSize := SIZE
    offset := 0
    mode := Mode.PACK }

/-- The from-source constructor taking a pointer and a size (and equally
the array-reference constructor, whose body is the same with
SRC_SIZE for srcSize): m_DataSize is set to srcSize in the initializer
list in both branches; if srcSize exceeds SIZE the mode is FAILURE and
the buffer stays default (zeroed), otherwise UNPACK with src copied in. -/
def mkFromSrc (SIZE : Nat) (src : List Nat) : BufferPacker SIZE :=
  if src.length > SIZE then
    { buffer := List.replicate SIZE 0
      dataSize := src.length
      offset := 0
      mode := Mode.FAILURE }
  else
    { buffer := writeBytes (List.replicate SIZE 0) 0 src
      dataSize := src.length
      offset := 0
      mode := Mode.UNPACK }

namespace BufferPacker

variable {SIZE : Nat}

/-- The bool conversion operator: true unless the mode is FAILURE. -/
def toBool (p : BufferPacker SIZE) : Bool :=
  decide (p.mode ≠ Mode.FAILURE)

/-- hasFailed(): returns m_Mode != FAILURE, i.e. true unless the mode is
FAILURE (the same value as the bool conversion). -/
def hasFailed (p : BufferPacker SIZE) : Bool :=
  decide (p.mode ≠ Mode.FAILURE)

/-- pack(value): a value is its byte representation bs (length n =
sizeof(T)).  No-op unless in PACK mode; if offset + n overflows SIZE,
enter FAILURE without writing; otherwise copy the bytes in, advance the
offset, and raise m_DataSize to the offset if it grew past it. -/
def pack (p : BufferPacker SIZE) (bs : List Nat) : BufferPacker SIZE :=
  if p.mode ≠ Mode.PACK then p
  else if p.offset + bs.length > SIZE then
    { p with mode := Mode.FAILURE }
  else
    let newOffset := p.offset + bs.length
    { p with
        buffer := writeBytes p.buffer p.offset bs
        offset := newOffset
        dataSize := if newOffset > p.dataSize then newOffset else p.dataSize }

/-- unpack<T>(): n = sizeof(T); the default-initialized T is the
all-zero byte string.  Returns the default unless in UNPACK mode; if
offset + n overreads m_DataSize, enter FAILURE and return the default;
otherwise read n bytes at the offset and advance it. -/
def unpack (p : BufferPacker SIZE) (n : Nat) : List Nat × BufferPacker SIZE :=
  if p.mode ≠ Mode.UNPACK then (List.replicate n 0, p)
  else if p.offset + n > p.dataSize then
    (List.replicate n 0, { p with mode := Mode.FAILURE })
  else
    (readBytes p.buffer p.offset n, { p with offset := p.offset + n })

/-- skip<T>(): like unpack but only advances the offset, with the same
mode and overread checks. -/
def skip (p : BufferPacker SIZE) (n : Nat) : BufferPacker SIZE :=
  if p.mode ≠ Mode.UNPACK then p
  else if p.offset + n > p.dataSize then
    { p with mode := Mode.FAILURE }
  else
    { p with offset := p.offset + n }

/-- seek<T>(): like unpack but does not advance the offset, with the
same mode and overread checks. -/
def seek (p : BufferPacker SIZE) (n : Nat) : List Nat × BufferPacker SIZE :=
  if p.mode ≠ Mode.UNPACK then (List.replicate n 0, p)
  else if p.offset + n > p.dataSize then
    (List.replicate n 0, { p with mode := Mode.FAILURE })
  else
    (readBytes p.buffer p.offset n, p)

/-- deepCopyTo(dest): returns the destination buffer after the call
together with the packer state.  Early return if already FAILED; if
m_DataSize exceeds the destination size, enter FAILURE copying nothing;
otherwise memcpy m_Offset bytes of the internal buffer to dest. -/
def deepCopyTo (p : BufferPacker SIZE) (dest : List Nat) :
    List Nat × BufferPacker SIZE :=
  if p.mode = Mode.FAILURE then (dest, p)
  else if p.dataSize > dest.length then
    (dest, { p with mode := Mode.FAILURE })
  else
    (writeBytes dest 0 (readBytes p.buffer 0 p.offset), p)

/-- getBufferSize(): returns m_DataSize. -/
def getBufferSize (p : BufferPacker SIZE) : Nat :=
  p.dataSize

/-- reset(clearBuffer): unconditionally zero the offset and data size
and enter PACK mode; zero the whole buffer only when asked. -/
def reset (p : BufferPacker SIZE) (clearBuffer : Bool) : BufferPacker SIZE :=
  { p with
      offset := 0
      dataSize := 0
      mode := Mode.PACK
      buffer := if clearBuffer then List.replicate SIZE 0 else p.buffer }

/-- reset(src): if the source is larger than SIZE, enter FAILURE and
return; otherwise zero the offset, set m_DataSize to the source length,
enter UNPACK mode, memset the buffer to zero and copy the source in. -/
def resetSrc (p : BufferPacker SIZE) (src : List Nat) : BufferPacker SIZE :=
  if src.length > SIZE then
    { p with mode := Mode.FAILURE }
  else
    { p with
        offset := 0
        dataSize := src.length
        mode := Mode.UNPACK
        buffer := writeBytes (List.replicate SIZE 0) 0 src }

/-- getOwnedHeapBuffer(): nullptr (none) when FAILED; otherwise a fresh
copy of the first m_DataSize bytes of the internal buffer. -/
def getOwnedHeapBuffer (p : BufferPacker SIZE) : Option (List Nat) :=
  if p.mode = Mode.FAILURE then none
  else some (readBytes p.buffer 0 p.dataSize)

end BufferPacker

/-- Pack a list of values (each given by its byte representation) in
order. -/
def packAll {SIZE : Nat} (p : BufferPacker SIZE) (vs : List (List Nat)) :
    BufferPacker SIZE :=
  vs.foldl BufferPacker.pack p

/-- Unpack a list of sizes in order, collecting the values. -/
def unpackAll {SIZE : Nat} (p : BufferPacker SIZE) :
    List Nat → List (List Nat) × BufferPacker SIZE
  | [] => ([], p)
  | n :: ns =>
    let r := p.unpack n
    let rest := unpackAll r.2 ns
    (r.1 :: rest.1, rest.2)

/-- Total number of bytes of a list of values. -/
def totalSize (vs : List (List Nat)) : Nat :=
  (vs.map List.length).sum

/-- States reachable by construction followed by any sequence of
state-changing operations. -/
inductive Reachable (SIZE : Nat) : BufferPacker SIZE → Prop where
  | empty : Reachable SIZE (mkEmpty SIZE)
  | fromSrc (src : List Nat) : Reachable SIZE (mkFromSrc SIZE src)
  | packStep (p : BufferPacker SIZE) (bs : List Nat) :
      Reachable SIZE p → Reachable SIZE (p.pack bs)
  | unpackStep (p : BufferPacker SIZE) (n : Nat) :
      Reachable SIZE p → Reachable SIZE (p.unpack n).2
  | skipStep (p : BufferPacker SIZE) (n : Nat) :
      Reachable SIZE p → Reachable SIZE (p.skip n)
  | seekStep (p : BufferPacker SIZE) (n : Nat) :
      Reachable SIZE p → Reachable SIZE (p.seek n).2
  | copyStep (p : BufferPacker SIZE) (dest : List Nat) :
      Reachable SIZE p → Reachable SIZE (p.deepCopyTo dest).2
  | resetStep (p : BufferPacker SIZE) (b : Bool) :
      Reachable SIZE p → Reachable SIZE (p.reset b)
  | resetSrcStep (p : BufferPacker SIZE) (src : List Nat) :
      Reachable SIZE p → Reachable SIZE (p.resetSrc src)

section ByteSurgery

lemma length_writeBytes (buf bs : List Nat) (off : Nat)
    (h : off + bs.length ≤ buf.length) :
    (writeBytes buf off bs).length = buf.length := by
  simp only [writeBytes, List.length_append, List.length_take, List.length_drop]
  omega

lemma take_writeBytes (buf bs : List Nat) (off k : Nat) (hk : k ≤ off)
    (h : off ≤ buf.length) :
    (writeBytes buf off bs).take k = buf.take k := by
  have hlen : (buf.take off).length = off := by
    simp only [List.length_take]
    omega
  rw [writeBytes, List.append_assoc,
      List.take_append_of_le_length (by rw [hlen]; exact hk),
      List.take_take, min_eq_left hk]

lemma read_write (buf bs : List Nat) (off : Nat)
    (h : off + bs.length ≤ buf.length) :
    readBytes (writeBytes buf off bs) off bs.length = bs := by
  have hlen : (buf.take off).length = off := by
    simp only [List.length_take]
    omega
  rw [readBytes, writeBytes, List.append_assoc,
      List.drop_append_of_le_length (le_of_eq hlen.symm),
      List.drop_eq_nil_of_le (le_of_eq hlen), List.nil_append,
      List.take_append_of_le_length (le_refl bs.length), List.take_length]

lemma readBytes_congr_take (b1 b2 : List Nat) (off n k : Nat)
    (h : off + n ≤ k) (he : b1.take k = b2.take k) :
    readBytes b1 off n = readBytes b2 off n := by
  have key : ∀ b : List Nat, readBytes b off n = ((b.take k).drop off).take n := by
    intro b
    rw [readBytes, List.drop_take, List.take_take, min_eq_left (by omega)]
  rw [key b1, key b2, he]

lemma writeBytes_zero_full (bs : List Nat) (k : Nat) (h : bs.length = k) :
    writeBytes (List.replicate k 0) 0 bs = bs := by
  subst h
  simp [writeBytes]

lemma readBytes_zero_full (buf : List Nat) (k : Nat) (h : buf.length = k) :
    readBytes buf 0 k = buf := by
  subst h
  simp [readBytes]

end ByteSurgery

open BufferPacker

/-- C3: the spec claims the empty constructor yields logical_size = 0 and
hence a buffer-size query of 0, but the source initializer list sets
m_DataSize to SIZE: for SIZE = 8 the query returns 8, not 0.  Mode,
cursor and storage are as the spec says. -/
theorem C3_empty_ctor_dataSize_is_SIZE :
    (mkEmpty 8).getBufferSize = 8 ∧ ¬ (mkEmpty 8).getBufferSize = 0 ∧
    (mkEmpty 8).mode = Mode.PACK ∧ (mkEmpty 8).offset = 0 ∧
    (mkEmpty 8).buffer = List.replicate 8 0 := by
  decide

/-- C10: hasFailed() returns the same value as the bool conversion, and
both are true exactly when the mode is not FAILURE — the inverse of what
the name hasFailed suggests. -/
theorem C10_hasFailed_inverted (SIZE : Nat) (p : BufferPacker SIZE) :
    p.hasFailed = p.toBool ∧ (p.hasFailed = true ↔ p.mode ≠ Mode.FAILURE) := by
  refine ⟨rfl, ?_⟩
  simp [BufferPacker.hasFailed]

/-- C9: FAILURE mode is absorbing: pack, unpack, skip, seek, deepCopyTo
and getOwnedHeapBuffer leave a failed packer's state untouched; the
value-returning operations yield a zeroed value, the exported
destination is untouched, the heap export is null, and the status query
reports false. -/
theorem C9_failed_absorbing (SIZE : Nat) (p : BufferPacker SIZE)
    (h : p.mode = Mode.FAILURE) (bs : List Nat) (n : Nat) (dest : List Nat) :
    p.pack bs = p ∧
    (p.unpack n).2 = p ∧ (p.unpack n).1 = List.replicate n 0 ∧
    p.skip n = p ∧
    (p.seek n).2 = p ∧ (p.seek n).1 = List.replicate n 0 ∧
    (p.deepCopyTo dest).2 = p ∧ (p.deepCopyTo dest).1 = dest ∧
    p.getOwnedHeapBuffer = none ∧ p.toBool = false := by
  simp [BufferPacker.pack, BufferPacker.unpack, BufferPacker.skip,
        BufferPacker.seek, BufferPacker.deepCopyTo,
        BufferPacker.getOwnedHeapBuffer, BufferPacker.toBool, h]

/-- Witness for C9 at a concrete failed packer (oversized-source
construction with capacity 1). -/
theorem C9_failed_absorbing_witness :
    (mkFromSrc 1 [0, 0]).mode = Mode.FAILURE ∧
    ((mkFromSrc 1 [0, 0]).pack [7] = mkFromSrc 1 [0, 0] ∧
     ((mkFromSrc 1 [0, 0]).unpack 2).2 = mkFromSrc 1 [0, 0] ∧
     ((mkFromSrc 1 [0, 0]).unpack 2).1 = List.replicate 2 0 ∧
     (mkFromSrc 1 [0, 0]).skip 2 = mkFromSrc 1 [0, 0] ∧
     ((mkFromSrc 1 [0, 0]).seek 2).2 = mkFromSrc 1 [0, 0] ∧
     ((mkFromSrc 1 [0, 0]).seek 2).1 = List.replicate 2 0 ∧
     ((mkFromSrc 1 [0, 0]).deepCopyTo [9, 9]).2 = mkFromSrc 1 [0, 0] ∧
     ((mkFromSrc 1 [0, 0]).deepCopyTo [9, 9]).1 = [9, 9] ∧
     (mkFromSrc 1 [0, 0]).getOwnedHeapBuffer = none ∧
     (mkFromSrc 1 [0, 0]).toBool = false) :=
  ⟨by decide, C9_failed_absorbing 1 (mkFromSrc 1 [0, 0]) (by decide) [7] 2 [9, 9]⟩

/-- C6: in UNPACK mode, an overread (cursor plus the value size past the
data size) makes unpack, skip and seek enter FAILURE with the cursor and
every other field unchanged, and the value-returning operations return
the zeroed default. -/
theorem C6_overread_latch (SIZE : Nat) (p : BufferPacker SIZE) (n : Nat)
    (hm : p.mode = Mode.UNPACK) (ho : p.dataSize < p.offset + n) :
    (p.unpack n).2 = { p with mode := Mode.FAILURE } ∧
    (p.unpack n).1 = List.replicate n 0 ∧
    p.skip n = { p with mode := Mode.FAILURE } ∧
    (p.seek n).2 = { p with mode := Mode.FAILURE } ∧
    (p.seek n).1 = List.replicate n 0 := by
  simp [BufferPacker.unpack, BufferPacker.skip, BufferPacker.seek, hm, ho]

/-- Witness for C6: the spec's own scenario — capacity 1, source of one
byte with value 1, reading an 8-byte type. -/
theorem C6_overread_latch_witness :
    (mkFromSrc 1 [1]).mode = Mode.UNPACK ∧
    (mkFromSrc 1 [1]).dataSize < (mkFromSrc 1 [1]).offset + 8 ∧
    (((mkFromSrc 1 [1]).unpack 8).2 = { mkFromSrc 1 [1] with mode := Mode.FAILURE } ∧
     ((mkFromSrc 1 [1]).unpack 8).1 = List.replicate 8 0 ∧
     (mkFromSrc 1 [1]).skip 8 = { mkFromSrc 1 [1] with mode := Mode.FAILURE } ∧
     ((mkFromSrc 1 [1]).seek 8).2 = { mkFromSrc 1 [1] with mode := Mode.FAILURE } ∧
     ((mkFromSrc 1 [1]).seek 8).1 = List.replicate 8 0) :=
  ⟨by decide, by decide, C6_overread_latch 1 (mkFromSrc 1 [1]) 8 (by decide) (by decide)⟩

/-- C2 as stated is false on the code: in the capacity-7 scenario
(pack bytes of uint16 15, float 16.0, int16 -5) the buffer-size query
after the failed third pack returns 7, not 6, because the empty
constructor initialized m_DataSize to the capacity and no pack lowered
it; moreover a subsequent export copies nothing at all (the destination
of six 9-bytes is untouched) because deepCopyTo returns early in
FAILURE mode. -/
theorem C2_counterexample :
    ¬ (((((mkEmpty 7).pack [15, 0]).pack [0, 0, 128, 65]).pack
          [251, 255]).getBufferSize = 6 ∧
       ((((((mkEmpty 7).pack [15, 0]).pack [0, 0, 128, 65]).pack
          [251, 255]).deepCopyTo [9, 9, 9, 9, 9, 9]).1 = [15, 0, 0, 0, 128, 65])) := by
  decide

/-- C2 amended: in the capacity-7 scenario the third pack does fail and
latch FAILURE with the cursor at 6 and the first six bytes of storage
holding the two packed values, but logical_size is 7 (the constructor
initialized it to the capacity), and a subsequent export is a no-op:
the destination is returned untouched and the mode stays FAILURE. -/
theorem C2_overflow_scenario :
    ((((mkEmpty 7).pack [15, 0]).pack [0, 0, 128, 65]).pack [251, 255]).mode =
      Mode.FAILURE ∧
    ((((mkEmpty 7).pack [15, 0]).pack [0, 0, 128, 65]).pack
        [251, 255]).getBufferSize = 7 ∧
    ((((mkEmpty 7).pack [15, 0]).pack [0, 0, 128, 65]).pack [251, 255]).offset = 6 ∧
    ((((mkEmpty 7).pack [15, 0]).pack [0, 0, 128, 65]).pack [251, 255]).buffer =
      [15, 0, 0, 0, 128, 65, 0] ∧
    (((((mkEmpty 7).pack [15, 0]).pack [0, 0, 128, 65]).pack
        [251, 255]).deepCopyTo [9, 9, 9, 9, 9, 9]).1 = [9, 9, 9, 9, 9, 9] ∧
    (((((mkEmpty 7).pack [15, 0]).pack [0, 0, 128, 65]).pack
        [251, 255]).deepCopyTo [9, 9, 9, 9, 9, 9]).2.mode = Mode.FAILURE := by
  decide

/-- C5 as stated is false on the code: the source-taking reset does not
unconditionally clear a failure — on a failed capacity-1 packer,
resetting with a 2-byte source leaves the mode FAILURE. -/
theorem C5_counterexample :
    (mkFromSrc 1 [0, 0]).mode = Mode.FAILURE ∧
    ((mkFromSrc 1 [0, 0]).resetSrc [0, 0]).mode = Mode.FAILURE := by
  decide

/-- C5 amended: reset(clearBuffer) unconditionally enters PACK mode
with cursor 0, from any state; reset(src) enters UNPACK mode with
cursor 0 provided the source fits in the capacity (otherwise the mode
becomes, or stays, FAILURE). -/
theorem C5_reset_clears_failure (SIZE : Nat) (p : BufferPacker SIZE) (b : Bool)
    (src : List Nat) (h : src.length ≤ SIZE) :
    (p.reset b).mode = Mode.PACK ∧ (p.reset b).offset = 0 ∧
    (p.resetSrc src).mode = Mode.UNPACK ∧ (p.resetSrc src).offset = 0 := by
  have hg : ¬ src.length > SIZE := by omega
  simp [BufferPacker.reset, BufferPacker.resetSrc, hg]

/-- Witness for C5 amended at a concrete failed packer (capacity 2,
oversized source of 3 bytes), reset with flag true and with the 1-byte
source [1]. -/
theorem C5_reset_clears_failure_witness :
    [1].length ≤ 2 ∧
    (((mkFromSrc 2 [0, 0, 0]).reset true).mode = Mode.PACK ∧
     ((mkFromSrc 2 [0, 0, 0]).reset true).offset = 0 ∧
     ((mkFromSrc 2 [0, 0, 0]).resetSrc [1]).mode = Mode.UNPACK ∧
     ((mkFromSrc 2 [0, 0, 0]).resetSrc [1]).offset = 0) :=
  ⟨by decide, C5_reset_clears_failure 2 (mkFromSrc 2 [0, 0, 0]) true [1] (by decide)⟩

/-- C7: deepCopyTo on a non-failed packer: when logical_size exceeds the
destination capacity it only latches FAILURE, leaving the destination
untouched; otherwise the packer is unchanged and the destination
becomes the first cursor bytes of storage followed by its own remaining
bytes — exactly cursor bytes are copied. -/
theorem C7_deepCopyTo_behavior (SIZE : Nat) (p : BufferPacker SIZE)
    (dest : List Nat) (h : p.mode ≠ Mode.FAILURE) :
    (dest.length < p.dataSize →
      (p.deepCopyTo dest).2 = { p with mode := Mode.FAILURE } ∧
      (p.deepCopyTo dest).1 = dest) ∧
    (p.dataSize ≤ dest.length → p.offset ≤ p.buffer.length →
      (p.deepCopyTo dest).2 = p ∧
      (p.deepCopyTo dest).1 = p.buffer.take p.offset ++ dest.drop p.offset) := by
  constructor
  · intro hlt
    simp [BufferPacker.deepCopyTo, h, hlt]
  · intro hle hoff
    have hg : ¬ p.dataSize > dest.length := by omega
    have hread : readBytes p.buffer 0 p.offset = p.buffer.take p.offset := by
      rw [readBytes, List.drop_zero]
    have hlen : (p.buffer.take p.offset).length = p.offset := by
      simp only [List.length_take]
      omega
    have hcall : p.deepCopyTo dest =
        (writeBytes dest 0 (readBytes p.buffer 0 p.offset), p) := by
      simp [BufferPacker.deepCopyTo, h, hg]
    refine ⟨by rw [hcall], ?_⟩
    rw [hcall]
    show dest.take 0 ++ readBytes p.buffer 0 p.offset ++
        dest.drop (0 + (readBytes p.buffer 0 p.offset).length) =
      p.buffer.take p.offset ++ dest.drop p.offset
    rw [hread, List.take_zero, List.nil_append, hlen, Nat.zero_add]

/-- Witness for C7 at a capacity-3 packer holding two packed bytes, for
a large (3-byte) and a small (2-byte) destination. -/
theorem C7_deepCopyTo_behavior_witness :
    (mkEmpty 3).pack [1, 2] ≠ { (mkEmpty 3).pack [1, 2] with mode := Mode.FAILURE } ∧
    (([9, 9].length < ((mkEmpty 3).pack [1, 2]).dataSize →
      (((mkEmpty 3).pack [1, 2]).deepCopyTo [9, 9]).2 =
        { (mkEmpty 3).pack [1, 2] with mode := Mode.FAILURE } ∧
      (((mkEmpty 3).pack [1, 2]).deepCopyTo [9, 9]).1 = [9, 9]) ∧
     (((mkEmpty 3).pack [1, 2]).dataSize ≤ [9, 9].length →
      ((mkEmpty 3).pack [1, 2]).offset ≤ ((mkEmpty 3).pack [1, 2]).buffer.length →
      (((mkEmpty 3).pack [1, 2]).deepCopyTo [9, 9]).2 = (mkEmpty 3).pack [1, 2] ∧
      (((mkEmpty 3).pack [1, 2]).deepCopyTo [9, 9]).1 =
        ((mkEmpty 3).pack [1, 2]).buffer.take ((mkEmpty 3).pack [1, 2]).offset ++
          [9, 9].drop ((mkEmpty 3).pack [1, 2]).offset)) :=
  ⟨by decide,
   C7_deepCopyTo_behavior 3 ((mkEmpty 3).pack [1, 2]) [9, 9] (by decide)⟩

/-- C4 as stated is false on the code: constructing a capacity-2 packer
from a 3-byte source yields a reachable state whose logical_size (3)
exceeds the capacity (2) — the initializer list stores the source size
before the overflow check rejects it. -/
theorem C4_counterexample :
    Reachable 2 (mkFromSrc 2 [0, 0, 0]) ∧
    ¬ (mkFromSrc 2 [0, 0, 0]).dataSize ≤ 2 :=
  ⟨Reachable.fromSrc [0, 0, 0], by decide⟩

/-- C4 amended: in every reachable state, cursor ≤ logical_size holds,
and logical_size ≤ capacity holds whenever the mode is not FAILURE (an
oversized-source construction or reset leaves logical_size above the
capacity, but only in FAILURE mode). -/
theorem C4_invariant (SIZE : Nat) (p : BufferPacker SIZE)
    (h : Reachable SIZE p) :
    p.offset ≤ p.dataSize ∧ (p.mode ≠ Mode.FAILURE → p.dataSize ≤ SIZE) := by
  induction h with
  | empty =>
    simp [mkEmpty]
  | fromSrc src =>
    unfold mkFromSrc
    split_ifs with hc
    · simp
    · simpa using Nat.le_of_not_lt hc
  | packStep p bs _ ih =>
    obtain ⟨h1, h2⟩ := ih
    unfold BufferPacker.pack
    split_ifs with hm hov
    · exact ⟨h1, h2⟩
    · exact ⟨h1, by simp⟩
    · have hp : p.mode = Mode.PACK := by
        by_contra hc
        exact hm hc
      have hds : p.dataSize ≤ SIZE := h2 (by rw [hp]; simp)
      constructor
      · simp only
        split_ifs <;> omega
      · intro _
        simp only
        split_ifs <;> omega
  | unpackStep p n _ ih =>
    obtain ⟨h1, h2⟩ := ih
    unfold BufferPacker.unpack
    split_ifs with hm hov
    · exact ⟨h1, h2⟩
    · exact ⟨h1, by simp⟩
    · have hu : p.mode = Mode.UNPACK := by
        by_contra hc
        exact hm hc
      exact ⟨by simp only; omega, fun _ => h2 (by rw [hu]; simp)⟩
  | skipStep p n _ ih =>
    obtain ⟨h1, h2⟩ := ih
    unfold BufferPacker.skip
    split_ifs with hm hov
    · exact ⟨h1, h2⟩
    · exact ⟨h1, by simp⟩
    · have hu : p.mode = Mode.UNPACK := by
        by_contra hc
        exact hm hc
      exact ⟨by simp only; omega, fun _ => h2 (by rw [hu]; simp)⟩
  | seekStep p n _ ih =>
    obtain ⟨h1, h2⟩ := ih
    unfold BufferPacker.seek
    split_ifs with hm hov
    · exact ⟨h1, h2⟩
    · exact ⟨h1, by simp⟩
    · exact ⟨h1, h2⟩
  | copyStep p dest _ ih =>
    obtain ⟨h1, h2⟩ := ih
    unfold BufferPacker.deepCopyTo
    split_ifs with hm hov
    · exact ⟨h1, h2⟩
    · exact ⟨h1, by simp⟩
    · exact ⟨h1, h2⟩
  | resetStep p b _ =>
    unfold BufferPacker.reset
    exact ⟨Nat.le_refl 0, fun _ => Nat.zero_le SIZE⟩
  | resetSrcStep p src _ ih =>
    obtain ⟨h1, h2⟩ := ih
    unfold BufferPacker.resetSrc
    split_ifs with hc
    · exact ⟨h1, by simp⟩
    · exact ⟨Nat.zero_le _, fun _ => Nat.le_of_not_lt hc⟩

/-- Witness for C4 amended at the freshly empty-constructed capacity-4
packer. -/
theorem C4_invariant_witness :
    (mkEmpty 4).offset ≤ (mkEmpty 4).dataSize ∧
    ((mkEmpty 4).mode ≠ Mode.FAILURE → (mkEmpty 4).dataSize ≤ 4) :=
  C4_invariant 4 (mkEmpty 4) Reachable.empty

/-- C8: in UNPACK mode with the value in range, seek leaves the state
entirely unchanged so repeated seeks return the same value; the value a
seek returns is the one unpack would return; and seek-then-skip lands
in exactly the state unpack-and-discard lands in, so a following unpack
of any next size agrees on both result and state. -/
theorem C8_seek_skip_unpack (SIZE : Nat) (p : BufferPacker SIZE) (n m : Nat)
    (hm : p.mode = Mode.UNPACK) (h : p.offset + n ≤ p.dataSize) :
    (p.seek n).2 = p ∧
    ((p.seek n).2.seek n).1 = (p.seek n).1 ∧
    (p.seek n).1 = (p.unpack n).1 ∧
    (p.seek n).2.skip n = (p.unpack n).2 ∧
    ((p.seek n).2.skip n).unpack m = (p.unpack n).2.unpack m := by
  have hg : ¬ p.offset + n > p.dataSize := by omega
  have h2 : (p.seek n).2 = p := by
    simp [BufferPacker.seek, hm, hg]
  have h4 : (p.seek n).2.skip n = (p.unpack n).2 := by
    rw [h2]
    simp [BufferPacker.skip, BufferPacker.unpack, hm, hg]
  refine ⟨h2, by rw [h2], ?_, h4, by rw [h4]⟩
  simp [BufferPacker.seek, BufferPacker.unpack, hm, hg]

/-- Witness for C8 at a capacity-4 unpacker over [1, 2, 3, 4], seeking
2 bytes and then unpacking 1 byte. -/
theorem C8_seek_skip_unpack_witness :
    (mkFromSrc 4 [1, 2, 3, 4]).mode = Mode.UNPACK ∧
    (mkFromSrc 4 [1, 2, 3, 4]).offset + 2 ≤ (mkFromSrc 4 [1, 2, 3, 4]).dataSize ∧
    (((mkFromSrc 4 [1, 2, 3, 4]).seek 2).2 = mkFromSrc 4 [1, 2, 3, 4] ∧
     (((mkFromSrc 4 [1, 2, 3, 4]).seek 2).2.seek 2).1 =
       ((mkFromSrc 4 [1, 2, 3, 4]).seek 2).1 ∧
     ((mkFromSrc 4 [1, 2, 3, 4]).seek 2).1 = ((mkFromSrc 4 [1, 2, 3, 4]).unpack 2).1 ∧
     ((mkFromSrc 4 [1, 2, 3, 4]).seek 2).2.skip 2 =
       ((mkFromSrc 4 [1, 2, 3, 4]).unpack 2).2 ∧
     (((mkFromSrc 4 [1, 2, 3, 4]).seek 2).2.skip 2).unpack 1 =
       ((mkFromSrc 4 [1, 2, 3, 4]).unpack 2).2.unpack 1) :=
  ⟨by decide, by decide,
   C8_seek_skip_unpack 4 (mkFromSrc 4 [1, 2, 3, 4]) 2 1 (by decide) (by decide)⟩

section RoundTrip

lemma pack_success (SIZE : Nat) (p : BufferPacker SIZE) (bs : List Nat)
    (hm : p.mode = Mode.PACK) (hds : p.dataSize = SIZE)
    (hfit : p.offset + bs.length ≤ SIZE) :
    p.pack bs = { buffer := writeBytes p.buffer p.offset bs,
                  dataSize := SIZE, offset := p.offset + bs.length,
                  mode := Mode.PACK } := by
  obtain ⟨buf, ds, off, mo⟩ := p
  simp only at hm hds hfit
  subst hm
  subst hds
  have hg : ¬ off + bs.length > ds := by omega
  simp [BufferPacker.pack, hg]

lemma pack_props (SIZE : Nat) (p : BufferPacker SIZE) (v : List Nat)
    (hm : p.mode = Mode.PACK) (hds : p.dataSize = SIZE)
    (hlen : p.buffer.length = SIZE) (hfit : p.offset + v.length ≤ SIZE) :
    (p.pack v).mode = Mode.PACK ∧ (p.pack v).dataSize = SIZE ∧
    (p.pack v).buffer.length = SIZE ∧
    (p.pack v).offset = p.offset + v.length ∧
    (p.pack v).buffer = writeBytes p.buffer p.offset v := by
  rw [pack_success SIZE p v hm hds hfit]
  exact ⟨rfl, rfl, by rw [length_writeBytes p.buffer v p.offset (by omega)]; exact hlen,
         rfl, rfl⟩

lemma totalSize_cons (v : List Nat) (vs : List (List Nat)) :
    totalSize (v :: vs) = v.length + totalSize vs := by
  simp [totalSize]

lemma packAll_spec (SIZE : Nat) (vs : List (List Nat)) :
    ∀ p : BufferPacker SIZE,
    p.mode = Mode.PACK → p.dataSize = SIZE → p.buffer.length = SIZE →
    p.offset + totalSize vs ≤ SIZE →
    (packAll p vs).mode = Mode.PACK ∧ (packAll p vs).dataSize = SIZE ∧
    (packAll p vs).buffer.length = SIZE ∧
    (packAll p vs).offset = p.offset + totalSize vs ∧
    (packAll p vs).buffer.take p.offset = p.buffer.take p.offset := by
  induction vs with
  | nil =>
    intro p hm hds hlen _
    exact ⟨hm, hds, hlen, by simp [packAll, totalSize], rfl⟩
  | cons v vs ih =>
    intro p hm hds hlen hfit
    rw [totalSize_cons] at hfit
    have hfit1 : p.offset + v.length ≤ SIZE := by omega
    obtain ⟨hm1, hds1, hlen1, hoff1, hbuf1⟩ := pack_props SIZE p v hm hds hlen hfit1
    have hfit2 : (p.pack v).offset + totalSize vs ≤ SIZE := by
      rw [hoff1]
      omega
    have hstep : packAll p (v :: vs) = packAll (p.pack v) vs := rfl
    obtain ⟨m2, d2, l2, o2, t2⟩ := ih (p.pack v) hm1 hds1 hlen1 hfit2
    rw [hstep]
    refine ⟨m2, d2, l2, ?_, ?_⟩
    · rw [o2, hoff1, totalSize_cons]
      omega
    · have hle : p.offset ≤ (p.pack v).offset := by
        rw [hoff1]
        omega
      calc (packAll (p.pack v) vs).buffer.take p.offset
          = ((packAll (p.pack v) vs).buffer.take (p.pack v).offset).take p.offset := by
            rw [List.take_take, min_eq_left hle]
        _ = ((p.pack v).buffer.take (p.pack v).offset).take p.offset := by rw [t2]
        _ = (p.pack v).buffer.take p.offset := by
            rw [List.take_take, min_eq_left hle]
        _ = p.buffer.take p.offset := by
            rw [hbuf1]
            exact take_writeBytes p.buffer v p.offset p.offset (Nat.le_refl _)
              (by omega)

lemma roundtrip_aux (SIZE : Nat) (vs : List (List Nat)) :
    ∀ p q : BufferPacker SIZE,
    p.mode = Mode.PACK → p.dataSize = SIZE → p.buffer.length = SIZE →
    p.offset + totalSize vs ≤ SIZE →
    q.mode = Mode.UNPACK → q.dataSize = SIZE →
    q.buffer = (packAll p vs).buffer → q.offset = p.offset →
    (unpackAll q (vs.map List.length)).1 = vs := by
  induction vs with
  | nil =>
    intro p q _ _ _ _ _ _ _ _
    simp [unpackAll]
  | cons v vs ih =>
    intro p q hm hds hlen hfit hqm hqds hqb hqo
    rw [totalSize_cons] at hfit
    have hfit1 : p.offset + v.length ≤ SIZE := by omega
    obtain ⟨hm1, hds1, hlen1, hoff1, hbuf1⟩ := pack_props SIZE p v hm hds hlen hfit1
    have hfit2 : (p.pack v).offset + totalSize vs ≤ SIZE := by
      rw [hoff1]
      omega
    have hstep : packAll p (v :: vs) = packAll (p.pack v) vs := rfl
    rw [hstep] at hqb
    have hqg : ¬ q.offset + v.length > q.dataSize := by
      rw [hqds, hqo]
      omega
    have hunp : q.unpack v.length =
        (readBytes q.buffer q.offset v.length,
         { q with offset := q.offset + v.length }) := by
      simp [BufferPacker.unpack, hqm, hqg]
    have htk := (packAll_spec SIZE vs (p.pack v) hm1 hds1 hlen1 hfit2).2.2.2.2
    have hval : readBytes q.buffer q.offset v.length = v := by
      rw [hqo, hqb]
      rw [readBytes_congr_take (packAll (p.pack v) vs).buffer (p.pack v).buffer
            p.offset v.length (p.pack v).offset (by rw [hoff1]) htk]
      rw [hbuf1]
      exact read_write p.buffer v p.offset (by omega)
    have hrec := ih (p.pack v) { q with offset := q.offset + v.length }
      hm1 hds1 hlen1 hfit2 hqm hqds hqb (by rw [hoff1, hqo])
    show ((q.unpack v.length).1 ::
        (unpackAll (q.unpack v.length).2 (vs.map List.length)).1) = v :: vs
    rw [hunp, hval, hrec]

/-- C1: sequential round-trip — packing any value sequence whose total
size fits the capacity into an empty-constructed packer, exporting via
getOwnedHeapBuffer (which succeeds), constructing an unpacker from the
exported bytes, and unpacking the same sizes in order reproduces the
values byte-exactly. -/
theorem C1_roundtrip (SIZE : Nat) (vs : List (List Nat))
    (h : totalSize vs ≤ SIZE) :
    ((packAll (mkEmpty SIZE) vs).getOwnedHeapBuffer).isSome = true ∧
    (unpackAll
        (mkFromSrc SIZE (((packAll (mkEmpty SIZE) vs).getOwnedHeapBuffer).getD []))
        (vs.map List.length)).1 = vs := by
  have hm0 : (mkEmpty SIZE).mode = Mode.PACK := rfl
  have hds0 : (mkEmpty SIZE).dataSize = SIZE := rfl
  have hlen0 : (mkEmpty SIZE).buffer.length = SIZE := by
    simp [mkEmpty]
  have hfit0 : (mkEmpty SIZE).offset + totalSize vs ≤ SIZE := by
    show 0 + totalSize vs ≤ SIZE
    omega
  obtain ⟨hm1, hds1, hlen1, _, _⟩ :=
    packAll_spec SIZE vs (mkEmpty SIZE) hm0 hds0 hlen0 hfit0
  have hheap : (packAll (mkEmpty SIZE) vs).getOwnedHeapBuffer =
      some (packAll (mkEmpty SIZE) vs).buffer := by
    rw [BufferPacker.getOwnedHeapBuffer, if_neg (by rw [hm1]; simp), hds1,
        readBytes_zero_full _ SIZE hlen1]
  have hsrc : mkFromSrc SIZE (packAll (mkEmpty SIZE) vs).buffer =
      { buffer := (packAll (mkEmpty SIZE) vs).buffer, dataSize := SIZE,
        offset := 0, mode := Mode.UNPACK } := by
    rw [mkFromSrc, if_neg (by rw [hlen1]; omega),
        writeBytes_zero_full _ SIZE hlen1, hlen1]
  refine ⟨by rw [hheap]; rfl, ?_⟩
  rw [hheap]
  show (unpackAll (mkFromSrc SIZE (packAll (mkEmpty SIZE) vs).buffer)
      (vs.map List.length)).1 = vs
  exact roundtrip_aux SIZE vs (mkEmpty SIZE)
    (mkFromSrc SIZE (packAll (mkEmpty SIZE) vs).buffer)
    hm0 hds0 hlen0 hfit0
    (by rw [hsrc]) (by rw [hsrc]) (by rw [hsrc]) (by rw [hsrc]; rfl)

/-- Witness for C1 with capacity 4 and the two values [1, 2] and [3]. -/
theorem C1_roundtrip_witness :
    totalSize [[1, 2], [3]] ≤ 4 ∧
    (((packAll (mkEmpty 4) [[1, 2], [3]]).getOwnedHeapBuffer).isSome = true ∧
     (unpackAll
        (mkFromSrc 4 (((packAll (mkEmpty 4) [[1, 2], [3]]).getOwnedHeapBuffer).getD []))
        ([[1, 2], [3]].map List.length)).1 = [[1, 2], [3]]) :=
  ⟨by decide, C1_roundtrip 4 [[1, 2], [3]] (by decide)⟩

end RoundTrip

end BufferPackerModel
